import Mathlib

/-!
Verification of the homework-status notifier bot (`homework.py`).

The program polls an API for homework status changes and relays them to a
Telegram chat.  We shallowly embed the decoded-JSON data model (`PyVal`),
the exception values the program manipulates (`PyErr`), and the four core
functions `get_api_answer`, `check_response`, `parse_status`,
`send_message`, together with one iteration of `main`'s poll loop
(`runCycle`).  External collaborators (the HTTP transport and the Telegram
client) are modelled as oracle functions in a `CycleEnv`.

Informational `logger.info` trace calls inside `get_api_answer`,
`check_response` and `parse_status` are not modelled (they carry no state);
the log events that the loop's observable behaviour depends on
(`send_message`'s debug/error lines and the loop's own debug/error lines)
are recorded explicitly.
-/

/-- A decoded JSON / Python value, as manipulated by the program. -/
inductive PyVal where
  | pynone
  | pyint (n : Int)
  | pystr (s : String)
  | pybool (b : Bool)
  | pylist (xs : List PyVal)
  | pydict (kvs : List (String × PyVal))
deriving Repr

/-- First-match association-list lookup: Python `d[k]` / `d.get(k)` on a
dict with (unique) string keys, returning `none` when the key is absent. -/
def dictGet : List (String × PyVal) → String → Option PyVal
  | [], _ => none
  | (k, v) :: rest, key => if k = key then some v else dictGet rest key

/-- Python `response.get(k)`: the value when the key is present, `None`
otherwise. -/
def pyGetV : PyVal → String → PyVal
  | .pydict kvs, k => (dictGet kvs k).getD .pynone
  | _, _ => .pynone

mutual
/-- Python `repr()` on a value, used below the top level of `str()`. -/
def pyRepr : PyVal → String
  | .pynone => "None"
  | .pyint n => toString n
  | .pystr s => "'" ++ s ++ "'"
  | .pybool b => cond b "True" "False"
  | .pylist xs => "[" ++ String.intercalate ", " (pyReprList xs) ++ "]"
  | .pydict kvs => "\x7b" ++ String.intercalate ", " (pyReprKVs kvs) ++ "\x7d"

/-- Python `repr` of each element of a list. -/
def pyReprList : List PyVal → List String
  | [] => []
  | v :: rest => pyRepr v :: pyReprList rest

/-- Rendering `'key': repr(value)` for each entry of a dict. -/
def pyReprKVs : List (String × PyVal) → List String
  | [] => []
  | (k, v) :: rest => ("'" ++ k ++ "': " ++ pyRepr v) :: pyReprKVs rest
end

/-- Python `str()` on a value, as used by f-string interpolation. -/
def pyStr : PyVal → String
  | .pynone => "None"
  | .pyint n => toString n
  | .pystr s => s
  | .pybool b => cond b "True" "False"
  | .pylist xs => "[" ++ String.intercalate ", " (pyReprList xs) ++ "]"
  | .pydict kvs => "\x7b" ++ String.intercalate ", " (pyReprKVs kvs) ++ "\x7d"

/-- The exception values the program raises and catches.
`PracticumException` is defined in the repository's `exception.py`, which
only `homework.py`'s import shows; modelled from the spec as a plain
message-carrying application exception (the spec's uniform upstream /
domain error kinds), whose `str()` is its message.  `otherError` stands
for any exception class other than the four the program names (used for
failures of the external Telegram client that are not `TelegramError`). -/
inductive PyErr where
  | typeError (msg : String)
  | keyError (msg : String)
  | practicumException (msg : String)
  | telegramError (msg : String)
  | otherError (msg : String)
deriving DecidableEq, Repr

/-- Python `str(error)`.  `str` of a `KeyError` wraps the argument in the
quotes of its `repr`, which is what the loop's f-string and dedup
comparison actually see. -/
def errStr : PyErr → String
  | .typeError m => m
  | .keyError m => "'" ++ m ++ "'"
  | .practicumException m => m
  | .telegramError m => m
  | .otherError m => m

/-- Outcome of one `requests.get` call: the transport raises a
`RequestException`, or delivers a response with a numeric status code and
a body that `response.json()` either decodes or rejects. -/
inductive HttpResult where
  | raises (errText : String)
  | response (statusCode : Nat) (body : Option PyVal)

/-- Outcome of one `bot.send_message` call by the external Telegram
client: success, a `telegram.TelegramError`, or any other exception. -/
inductive SendResult where
  | ok
  | telegramErr (msg : String)
  | otherErr (msg : String)

/-- The external collaborators of one poll cycle: the HTTP transport as a
function of the `from_date` value sent, and the Telegram client as a
function of the message text. -/
structure CycleEnv where
  http : PyVal → HttpResult
  send : String → SendResult

/-- A log record at the severity the program used. -/
inductive LogEvent where
  | debug (msg : String)
  | info (msg : String)
  | error (msg : String)
deriving DecidableEq, Repr

/-- The fixed status-code → verdict-text mapping `HOMEWORK_VERDICTS`. -/
def HOMEWORK_VERDICTS : List (String × String) :=
  [("approved", "Работа проверена: ревьюеру всё понравилось. Ура!"),
   ("reviewing", "Работа взята на проверку ревьюером."),
   ("rejected", "Работа проверена: у ревьюера есть замечания.")]

/-- String-keyed lookup in `HOMEWORK_VERDICTS`. -/
def verdictsGet : List (String × String) → String → Option String
  | [], _ => none
  | (k, v) :: rest, key => if k = key then some v else verdictsGet rest key

/-- Whether a decoded JSON value is hashable in Python (usable as a dict
key): arrays (`list`) and objects (`dict`) are not. -/
def pyHashable : PyVal → Bool
  | .pylist _ => false
  | .pydict _ => false
  | _ => true

/-- Outcome of Python `HOMEWORK_VERDICTS[status]`: a verdict is found,
the lookup raises `KeyError`, or hashing the key raises
`TypeError: unhashable type: '<ty>'` before the lookup happens. -/
inductive HvResult where
  | found (verdict : String)
  | keyErr
  | unhashable (ty : String)
deriving DecidableEq, Repr

/-- Python `HOMEWORK_VERDICTS[status]` for an arbitrary value: a string
equal to a key finds its verdict; any other hashable value (`None`, an
int, a bool, another string) raises `KeyError`; an unhashable value (a
list or a dict) raises `TypeError: unhashable type` before the lookup. -/
def hvLookup (status : PyVal) : HvResult :=
  match status with
  | .pystr s =>
      match verdictsGet HOMEWORK_VERDICTS s with
      | some v => .found v
      | none => .keyErr
  | .pylist _ => .unhashable "list"
  | .pydict _ => .unhashable "dict"
  | _ => .keyErr

/-- Model of `send_message(bot, message)`: attempts delivery via the Telegram
client, logs success at debug, catches a `telegram.TelegramError` and logs
it at error; any other exception from the client escapes.  Returns the log
events it emitted and `ok` when it returns normally. -/
def send_message (env : CycleEnv) (message : String) :
    List LogEvent × Except PyErr Unit :=
  match env.send message with
  | .ok => ([.debug ("Сообщение в Telegram отправлено: " ++ message)], .ok ())
  | .telegramErr e =>
      ([.error ("Сообщение в Telegram не отправлено: " ++ e)], .ok ())
  | .otherErr e => ([], .error (.otherError e))

/-- Model of `get_api_answer(timestamp)`: GET with `from_date = timestamp`; wraps a
transport failure, a non-200 status code, and an undecodable body into
`PracticumException`; otherwise returns the decoded JSON. -/
def get_api_answer (env : CycleEnv) (timestamp : PyVal) : Except PyErr PyVal :=
  match env.http timestamp with
  | .raises e => .error (.practicumException ("Ошибка при запросе к API: " ++ e))
  | .response code body =>
      if code ≠ 200 then .error (.practicumException ("Ошибка " ++ toString code))
      else
        match body with
        | none => .error (.practicumException "Ошибка перевода json")
        | some v => .ok v

/-- Model of `check_response(response)`: `TypeError` when the payload is not a
dict; `KeyError` when `response.get('homeworks') is None` (key absent or
explicit null); `TypeError` when `homeworks` is not a list; otherwise
returns the `homeworks` list. -/
def check_response (response : PyVal) : Except PyErr (List PyVal) :=
  match response with
  | .pydict kvs =>
      match dictGet kvs "homeworks" with
      | none => .error (.keyError "Отсутствует ключ homeworks")
      | some .pynone => .error (.keyError "Отсутствует ключ homeworks")
      | some (.pylist xs) => .ok xs
      | some _ => .error (.typeError "Неверный тип данных элемента homeworks")
  | _ => .error (.typeError "Неверный тип данных элемента response")

/-- Model of `parse_status(homework)`: reads `homework['homework_name']` and
`homework['status']`, turning the `KeyError` of a missing key into
`PracticumException('Отсутствует ключ в ответе API')`; looks the status up
in `HOMEWORK_VERDICTS`, turning its `KeyError` into the unknown-status
`PracticumException` — but an unhashable status value raises
`TypeError: unhashable type` there, which the `except KeyError` clause
does not catch, so it escapes; on success returns the formatted sentence.
Indexing a non-dict record raises an uncaught `TypeError` (Python:
"not subscriptable"). -/
def parse_status (homework : PyVal) : Except PyErr String :=
  match homework with
  | .pydict kvs =>
      match dictGet kvs "homework_name", dictGet kvs "status" with
      | some name, some status =>
          match hvLookup status with
          | .found verdict =>
              .ok ("Изменился статус проверки работы \"" ++ pyStr name ++ "\". "
                    ++ verdict)
          | .keyErr =>
              .error (.practicumException
                ("Неизвестный статус работы: " ++ pyStr status))
          | .unhashable ty =>
              .error (.typeError ("unhashable type: '" ++ ty ++ "'"))
      | _, _ => .error (.practicumException "Отсутствует ключ в ответе API")
  | _ => .error (.typeError "object is not subscriptable")

/-- The `try` block of one iteration of `main`'s loop: fetch, validate,
and — when the validated list is non-empty — translate element 0 and pass
the sentence to `send_message`.  Returns the new `timestamp` value
(`response.get('current_date')`) on success or the escaping exception,
together with the texts handed to `send_message` at the status-notification
call site and the log events emitted. -/
def runTry (env : CycleEnv) (ts0 : PyVal) :
    Except PyErr PyVal × List String × List LogEvent :=
  match get_api_answer env ts0 with
  | .error e => (.error e, [], [])
  | .ok response =>
      match check_response response with
      | .error e => (.error e, [], [])
      | .ok homework =>
          match homework with
          | [] =>
              (.ok (pyGetV response "current_date"), [],
               [.info "Список домашних работ получен",
                .debug "Новые статусы отсутствуют"])
          | hw0 :: _ =>
              match parse_status hw0 with
              | .error e => (.error e, [], [.info "Список домашних работ получен"])
              | .ok text =>
                  match send_message env text with
                  | (slogs, .error e) =>
                      (.error e, [text], .info "Список домашних работ получен" :: slogs)
                  | (slogs, .ok _) =>
                      (.ok (pyGetV response "current_date"), [text],
                       .info "Список домашних работ получен" :: slogs)

/-- The observable outcome of one loop iteration: the two state variables
(`timestamp`, modelling the Cursor, and `error_message`, modelling the
Last Error State as the `str()` of what is stored), the message texts
handed to `send_message` at the status call site and at the error-handler
call site, the log events, the `from_date` values fetched with, and the
exception, if any, that escaped the iteration (crashing the loop). -/
structure CycleOutput where
  timestamp : PyVal
  error_message : String
  statusSent : List String
  errorSent : List String
  logs : List LogEvent
  fetched : List PyVal
  crashed : Option PyErr
deriving Repr

/-- One full iteration of `main`'s `while True` body (sans `sleep`),
from state `(timestamp = ts0, error_message = err0)`.  On success the
cursor becomes `response.get('current_date')` and the error state is
cleared; on an exception the handler notifies iff `str(error)` differs
from `str(error_message)`, then updates the state and logs — unless its
own `send_message` raises, in which case the exception escapes the loop. -/
def runCycle (env : CycleEnv) (ts0 : PyVal) (err0 : String) : CycleOutput :=
  match runTry env ts0 with
  | (.ok tsNew, sent, logs) =>
      { timestamp := tsNew, error_message := "", statusSent := sent,
        errorSent := [], logs := logs, fetched := [ts0], crashed := none }
  | (.error e, sent, logs) =>
      if errStr e ≠ err0 then
        match send_message env ("Сбой в работе программы: " ++ errStr e) with
        | (slogs, .ok _) =>
            { timestamp := ts0, error_message := errStr e, statusSent := sent,
              errorSent := ["Сбой в работе программы: " ++ errStr e],
              logs := logs ++ slogs
                ++ [.error ("Сбой в работе программы: " ++ errStr e)],
              fetched := [ts0], crashed := none }
        | (slogs, .error e2) =>
            { timestamp := ts0, error_message := err0, statusSent := sent,
              errorSent := ["Сбой в работе программы: " ++ errStr e],
              logs := logs ++ slogs,
              fetched := [ts0], crashed := some e2 }
      else
        { timestamp := ts0, error_message := err0, statusSent := sent,
          errorSent := [],
          logs := logs ++ [.error ("Сбой в работе программы: " ++ errStr e)],
          fetched := [ts0], crashed := none }

/-- An environment whose HTTP transport answers every fetch with status
200 and the fixed decoded body `r`. -/
def envOf (send : String → SendResult) (r : PyVal) : CycleEnv :=
  { http := fun _ => .response 200 (some r), send := send }

/-- Proposition that `t` occurs as a substring of `s`. -/
def strContains (s t : String) : Prop := ∃ p q, s = p ++ t ++ q

/-- Whether the Telegram client's outcome is an exception `send_message`
does not catch. -/
def sendRaises : SendResult → Bool
  | .otherErr _ => true
  | _ => false

/-- The Telegram client that always delivers. -/
def sendOk : String → SendResult := fun _ => .ok

lemma send_message_returns (env : CycleEnv) (m : String)
    (h : sendRaises (env.send m) = false) : (send_message env m).2 = .ok () := by
  cases henv : env.send m <;> simp_all [send_message, sendRaises, henv]

lemma get_api_answer_envOf (send : String → SendResult) (r : PyVal) (ts : PyVal) :
    get_api_answer (envOf send r) ts = .ok r := by
  simp [get_api_answer, envOf]

lemma runCycle_of_ok (env : CycleEnv) (ts0 : PyVal) (err0 : String) (v : PyVal)
    (sent : List String) (logs : List LogEvent)
    (h : runTry env ts0 = (.ok v, sent, logs)) :
    runCycle env ts0 err0 =
      { timestamp := v, error_message := "", statusSent := sent,
        errorSent := [], logs := logs, fetched := [ts0], crashed := none } := by
  unfold runCycle; rw [h]

lemma runCycle_of_err_notify (env : CycleEnv) (ts0 : PyVal) (err0 : String)
    (e : PyErr) (sent : List String) (logs : List LogEvent)
    (h : runTry env ts0 = (.error e, sent, logs)) (hne : errStr e ≠ err0)
    (hs : sendRaises (env.send ("Сбой в работе программы: " ++ errStr e)) = false) :
    runCycle env ts0 err0 =
      { timestamp := ts0, error_message := errStr e, statusSent := sent,
        errorSent := ["Сбой в работе программы: " ++ errStr e],
        logs := logs
          ++ (send_message env ("Сбой в работе программы: " ++ errStr e)).1
          ++ [.error ("Сбой в работе программы: " ++ errStr e)],
        fetched := [ts0], crashed := none } := by
  unfold runCycle
  rw [h]
  simp only [hne, if_pos, ne_eq, not_false_iff]
  rcases hsm : send_message env ("Сбой в работе программы: " ++ errStr e) with ⟨slogs, sres⟩
  have h2 := send_message_returns env ("Сбой в работе программы: " ++ errStr e) hs
  rw [hsm] at h2
  cases sres with
  | ok u => rfl
  | error e2 => simp at h2

lemma runCycle_of_err_suppress (env : CycleEnv) (ts0 : PyVal) (err0 : String)
    (e : PyErr) (sent : List String) (logs : List LogEvent)
    (h : runTry env ts0 = (.error e, sent, logs)) (heq : errStr e = err0) :
    runCycle env ts0 err0 =
      { timestamp := ts0, error_message := err0, statusSent := sent,
        errorSent := [],
        logs := logs ++ [.error ("Сбой в работе программы: " ++ errStr e)],
        fetched := [ts0], crashed := none } := by
  unfold runCycle
  rw [h]
  simp [heq]

lemma runCycle_of_err_timestamp (env : CycleEnv) (ts0 : PyVal) (err0 : String)
    (e : PyErr) (sent : List String) (logs : List LogEvent)
    (h : runTry env ts0 = (.error e, sent, logs)) :
    (runCycle env ts0 err0).timestamp = ts0 := by
  unfold runCycle
  rw [h]
  split
  · rename_i heq
    simp at heq
  · rename_i e2 sent2 logs2 heq2
    have he : e2 = e := by simp at heq2; tauto
    subst he
    split
    · rcases hsm : send_message env ("Сбой в работе программы: " ++ errStr e2) with ⟨slogs, sres⟩
      cases sres <;> simp [hsm]
    · rfl

/-- An environment with the given Telegram client and an HTTP transport
that is never consulted. -/
def envSend (send : String → SendResult) : CycleEnv :=
  { http := fun _ => .raises "unused", send := send }

/-- C1: the spec says a successful cycle whose response lacks the
`current_date` field retains the prior Cursor, and that prior value is the
next `from_date`.  The code runs `timestamp = response.get('current_date')`
with no default, so the Cursor is overwritten with `None` and the next
fetch sends `from_date = None` — contradicting the retention the spec
describes and the `timestamp: int` annotation of `get_api_answer`.
Concretely: a successful cycle on payload `{"homeworks": []}` from
Cursor `42` ends with Cursor `None`, not `42`. -/
theorem C1_cursor_nulled_when_current_date_absent :
    (runCycle (envOf sendOk (.pydict [("homeworks", .pylist [])])) (.pyint 42) "").crashed = none
    ∧ (runCycle (envOf sendOk (.pydict [("homeworks", .pylist [])])) (.pyint 42) "").errorSent = []
    ∧ (runCycle (envOf sendOk (.pydict [("homeworks", .pylist [])])) (.pyint 42) "").error_message = ""
    ∧ (runCycle (envOf sendOk (.pydict [("homeworks", .pylist [])])) (.pyint 42) "").timestamp = .pynone
    ∧ ¬ (runCycle (envOf sendOk (.pydict [("homeworks", .pylist [])])) (.pyint 42) "").timestamp
        = .pyint 42
    ∧ (runCycle (envOf sendOk (.pydict [("homeworks", .pylist [])]))
        ((runCycle (envOf sendOk (.pydict [("homeworks", .pylist [])])) (.pyint 42) "").timestamp)
        ((runCycle (envOf sendOk (.pydict [("homeworks", .pylist [])])) (.pyint 42) "").error_message)).fetched
      = [.pynone] := by
  refine ⟨rfl, rfl, rfl, rfl, ?_, rfl⟩
  intro hc
  exact PyVal.noConfusion hc

/-- C3 counterexample: a delivery failure of the external client that is
not a `telegram.TelegramError` is not caught by `send_message` — it
escapes to the caller, so `send_message` does not return normally on
every possible client failure. -/
theorem C3_counterexample_other_exception_escapes :
    (send_message (envSend fun _ => .otherErr "boom") "привет").2
      = .error (.otherError "boom")
    ∧ (send_message (envSend fun _ => .otherErr "boom") "привет").2 ≠ .ok () := by
  refine ⟨rfl, ?_⟩
  intro hc
  exact Except.noConfusion hc

/-- C3 (amended): for every message text, when the external client fails
with a `telegram.TelegramError` the Notifier catches it, logs it at error
severity, and returns normally; on successful delivery it logs at debug
and returns normally.  Failures of any other exception class are not
caught and propagate to the caller. -/
theorem C3_send_message_catches_telegram_errors :
    ∀ (env : CycleEnv) (m : String),
      (env.send m = .ok →
        send_message env m
          = ([.debug ("Сообщение в Telegram отправлено: " ++ m)], .ok ()))
      ∧ (∀ e, env.send m = .telegramErr e →
        send_message env m
          = ([.error ("Сообщение в Telegram не отправлено: " ++ e)], .ok ()))
      ∧ (∀ e, env.send m = .otherErr e →
        (send_message env m).2 = .error (.otherError e)) := by
  intro env m
  refine ⟨?_, ?_, ?_⟩
  · intro h; simp [send_message, h]
  · intro e h; simp [send_message, h]
  · intro e h; simp [send_message, h]

/-- C3 witness: concrete delivery success and concrete caught
`TelegramError`. -/
theorem C3_send_message_witness :
    send_message (envSend sendOk) "hi"
      = ([.debug "Сообщение в Telegram отправлено: hi"], .ok ())
    ∧ send_message (envSend fun _ => .telegramErr "bad") "hi"
      = ([.error "Сообщение в Telegram не отправлено: bad"], .ok ()) :=
  ⟨(C3_send_message_catches_telegram_errors (envSend sendOk) "hi").1 rfl,
   (C3_send_message_catches_telegram_errors (envSend fun _ => .telegramErr "bad") "hi").2.1
     "bad" rfl⟩

/-- C5: `check_response` rejects every non-mapping payload with a type
error, every mapping whose `homeworks` entry is absent or an explicit
null with a missing-key error, and every mapping whose `homeworks` value
is neither null nor a sequence with a type error; in each case it raises
(`Except.error`), never returning a value. -/
theorem C5_check_response_rejects_malformed :
    (∀ r : PyVal, (∀ kvs, r ≠ .pydict kvs) →
      check_response r = .error (.typeError "Неверный тип данных элемента response"))
    ∧ (∀ kvs, dictGet kvs "homeworks" = none ∨ dictGet kvs "homeworks" = some .pynone →
      check_response (.pydict kvs) = .error (.keyError "Отсутствует ключ homeworks"))
    ∧ (∀ kvs v, dictGet kvs "homeworks" = some v → v ≠ .pynone →
      (∀ xs, v ≠ .pylist xs) →
      check_response (.pydict kvs) = .error (.typeError "Неверный тип данных элемента homeworks")) := by
  refine ⟨?_, ?_, ?_⟩
  · intro r hr
    cases r <;> first | rfl | exact absurd rfl (hr _)
  · intro kvs h
    rcases h with h | h <;> simp [check_response, h]
  · intro kvs v hv hnone hlist
    cases v <;> simp [check_response, hv] <;>
      first | exact absurd rfl hnone | exact absurd rfl (hlist _)

/-- C5 witness: a non-mapping payload, a mapping without `homeworks`, an
explicit-null `homeworks`, and a non-sequence `homeworks`. -/
theorem C5_check_response_witness :
    check_response (.pyint 3) = .error (.typeError "Неверный тип данных элемента response")
    ∧ check_response (.pydict []) = .error (.keyError "Отсутствует ключ homeworks")
    ∧ check_response (.pydict [("homeworks", .pynone)])
      = .error (.keyError "Отсутствует ключ homeworks")
    ∧ check_response (.pydict [("homeworks", .pyint 7)])
      = .error (.typeError "Неверный тип данных элемента homeworks") :=
  ⟨C5_check_response_rejects_malformed.1 _ (fun _ h => PyVal.noConfusion h),
   C5_check_response_rejects_malformed.2.1 [] (Or.inl rfl),
   C5_check_response_rejects_malformed.2.1 _ (Or.inr rfl),
   C5_check_response_rejects_malformed.2.2 _ _ rfl
     (fun h => PyVal.noConfusion h) (fun _ h => PyVal.noConfusion h)⟩

/-- C9: `get_api_answer` raises the uniform upstream error carrying the
numeric status code for every HTTP status other than exactly 200 —
including other 2xx success codes — and only a status of exactly 200
proceeds to body decoding. -/
theorem C9_non_200_status_raises :
    ∀ (env : CycleEnv) (ts : PyVal) (code : Nat) (body : Option PyVal),
      env.http ts = .response code body →
      (code ≠ 200 →
        get_api_answer env ts
          = .error (.practicumException ("Ошибка " ++ toString code)))
      ∧ (code = 200 → body = none →
        get_api_answer env ts = .error (.practicumException "Ошибка перевода json"))
      ∧ (code = 200 → ∀ v, body = some v → get_api_answer env ts = .ok v) := by
  intro env ts code body hh
  refine ⟨?_, ?_, ?_⟩
  · intro hne
    simp [get_api_answer, hh, hne]
  · intro h200 hb
    subst h200; subst hb
    simp [get_api_answer, hh]
  · intro h200 v hb
    subst h200; subst hb
    simp [get_api_answer, hh]

/-- C9 witness: statuses 201 and 204 (2xx but not 200) raise the numeric
upstream error; status 200 returns the decoded body. -/
theorem C9_witness :
    get_api_answer (CycleEnv.mk (fun _ => .response 201 (some (.pydict []))) sendOk) (.pyint 0)
      = .error (.practicumException "Ошибка 201")
    ∧ get_api_answer (CycleEnv.mk (fun _ => .response 204 (some (.pydict []))) sendOk) (.pyint 0)
      = .error (.practicumException "Ошибка 204")
    ∧ get_api_answer (envOf sendOk (.pydict [])) (.pyint 0) = .ok (.pydict []) :=
  ⟨(C9_non_200_status_raises _ _ 201 _ rfl).1 (by decide),
   (C9_non_200_status_raises _ _ 204 _ rfl).1 (by decide),
   (C9_non_200_status_raises _ _ 200 _ rfl).2.2 rfl _ rfl⟩

/-- The closed set of recognized status codes, as record values. -/
def recognizedStatuses : List PyVal :=
  [.pystr "approved", .pystr "reviewing", .pystr "rejected"]

lemma verdictsGet_eq_none_iff (s : String) :
    verdictsGet HOMEWORK_VERDICTS s = none ↔
      ¬(s = "approved" ∨ s = "reviewing" ∨ s = "rejected") := by
  simp only [HOMEWORK_VERDICTS, verdictsGet]
  split_ifs with h1 h2 h3
  · subst h1; simp
  · subst h2; simp
  · subst h3; simp
  · constructor
    · intro _
      rintro (h | h | h)
      · exact h1 h.symm
      · exact h2 h.symm
      · exact h3 h.symm
    · intro _
      rfl

lemma hvLookup_keyErr (status : PyVal) (hh : pyHashable status = true)
    (hmem : status ∉ recognizedStatuses) : hvLookup status = .keyErr := by
  cases status with
  | pystr s =>
    have hs : verdictsGet HOMEWORK_VERDICTS s = none := by
      rw [verdictsGet_eq_none_iff]
      intro hc
      apply hmem
      simp only [recognizedStatuses, List.mem_cons, List.not_mem_nil, or_false]
      rcases hc with h | h | h <;> simp [h]
    simp [hvLookup, hs]
  | pylist xs => simp [pyHashable] at hh
  | pydict kvs => simp [pyHashable] at hh
  | pynone => rfl
  | pyint n => rfl
  | pybool b => rfl

lemma hvLookup_mem (c verdict : String) (h : (c, verdict) ∈ HOMEWORK_VERDICTS) :
    hvLookup (.pystr c) = .found verdict := by
  simp [HOMEWORK_VERDICTS] at h
  rcases h with ⟨h1, h2⟩ | ⟨h1, h2⟩ | ⟨h1, h2⟩ <;> subst h1 <;> subst h2 <;> rfl

/-- C6 counterexample: a record with both fields present whose status is
the (unhashable) empty JSON array makes `HOMEWORK_VERDICTS[status]` raise
`TypeError: unhashable type`, which `except KeyError` does not catch —
`parse_status` propagates that `TypeError`, not the unknown-status error
the claim asserts for every status outside the recognized set. -/
theorem C6_counterexample_unhashable_status :
    parse_status (.pydict [("homework_name", .pystr "n"), ("status", .pylist [])])
      = .error (.typeError "unhashable type: 'list'")
    ∧ parse_status (.pydict [("homework_name", .pystr "n"), ("status", .pylist [])])
      ≠ .error (.practicumException "Неизвестный статус работы: []") := by
  refine ⟨rfl, ?_⟩
  intro hc
  rw [show parse_status (.pydict [("homework_name", .pystr "n"), ("status", .pylist [])])
        = .error (.typeError "unhashable type: 'list'") from rfl] at hc
  simp at hc

/-- C6 (amended): `parse_status` fails with the missing-field
`PracticumException` when the name field or the status field is absent;
with the unknown-status `PracticumException` when both are present and
the status is a hashable value outside the recognized set; raises
neither error when both are present and the status is recognized; and
for an unhashable status value (a JSON array or object) it raises an
uncaught `TypeError` instead of the unknown-status error. -/
theorem C6_parse_status_field_and_status_errors :
    (∀ kvs, dictGet kvs "homework_name" = none ∨ dictGet kvs "status" = none →
      parse_status (.pydict kvs)
        = .error (.practicumException "Отсутствует ключ в ответе API"))
    ∧ (∀ kvs name status,
      dictGet kvs "homework_name" = some name →
      dictGet kvs "status" = some status →
      pyHashable status = true →
      status ∉ recognizedStatuses →
      parse_status (.pydict kvs)
        = .error (.practicumException ("Неизвестный статус работы: " ++ pyStr status)))
    ∧ (∀ kvs name status,
      dictGet kvs "homework_name" = some name →
      dictGet kvs "status" = some status →
      status ∈ recognizedStatuses →
      ∃ text, parse_status (.pydict kvs) = .ok text)
    ∧ (∀ kvs name status,
      dictGet kvs "homework_name" = some name →
      dictGet kvs "status" = some status →
      pyHashable status = false →
      ∃ m, parse_status (.pydict kvs) = .error (.typeError m)) := by
  refine ⟨?_, ?_, ?_, ?_⟩
  · intro kvs h
    rcases h with h | h
    · cases h2 : dictGet kvs "status" <;> simp [parse_status, h, h2]
    · cases h1 : dictGet kvs "homework_name" <;> simp [parse_status, h, h1]
  · intro kvs name status h1 h2 hh hmem
    have h0 : hvLookup status = .keyErr := hvLookup_keyErr status hh hmem
    simp [parse_status, h1, h2, h0]
  · intro kvs name status h1 h2 hmem
    have key : ∀ v, hvLookup status = .found v →
        ∃ text, parse_status (.pydict kvs) = .ok text := by
      intro v hv
      refine ⟨"Изменился статус проверки работы \"" ++ pyStr name ++ "\". " ++ v, ?_⟩
      simp [parse_status, h1, h2, hv]
    simp only [recognizedStatuses, List.mem_cons, List.not_mem_nil, or_false] at hmem
    rcases hmem with rfl | rfl | rfl
    · exact key _ rfl
    · exact key _ rfl
    · exact key _ rfl
  · intro kvs name status h1 h2 hh
    cases status <;> simp [pyHashable] at hh
    · exact ⟨"unhashable type: 'list'", by simp [parse_status, h1, h2, hvLookup]⟩
    · exact ⟨"unhashable type: 'dict'", by simp [parse_status, h1, h2, hvLookup]⟩

/-- C6 witness: a record without a name, a record with the unrecognized
hashable status `archived`, a record with the recognized status
`reviewing`, and a record with an unhashable (array) status. -/
theorem C6_parse_status_witness :
    parse_status (.pydict [("status", .pystr "approved")])
      = .error (.practicumException "Отсутствует ключ в ответе API")
    ∧ parse_status (.pydict [("homework_name", .pystr "hw"), ("status", .pystr "archived")])
      = .error (.practicumException "Неизвестный статус работы: archived")
    ∧ (∃ text,
        parse_status (.pydict [("homework_name", .pystr "hw"), ("status", .pystr "reviewing")])
          = .ok text)
    ∧ ∃ m,
        parse_status (.pydict [("homework_name", .pystr "hw"), ("status", .pylist [.pyint 1])])
          = .error (.typeError m) :=
  ⟨C6_parse_status_field_and_status_errors.1 [("status", .pystr "approved")] (Or.inl rfl),
   C6_parse_status_field_and_status_errors.2.1
     [("homework_name", .pystr "hw"), ("status", .pystr "archived")]
     (.pystr "hw") (.pystr "archived") rfl rfl rfl (by simp [recognizedStatuses]),
   C6_parse_status_field_and_status_errors.2.2.1
     [("homework_name", .pystr "hw"), ("status", .pystr "reviewing")]
     (.pystr "hw") (.pystr "reviewing") rfl rfl (by simp [recognizedStatuses]),
   C6_parse_status_field_and_status_errors.2.2.2
     [("homework_name", .pystr "hw"), ("status", .pylist [.pyint 1])]
     (.pystr "hw") (.pylist [.pyint 1]) rfl rfl rfl⟩

/-- C7: for each recognized status code and every record carrying a
string name and that status, `parse_status` returns exactly the one
formatted sentence, and that sentence contains the submission name and
the exact verdict text mapped to the code. -/
theorem C7_parse_status_formats_verdict :
    ∀ (kvs : List (String × PyVal)) (n c verdict : String),
      (c, verdict) ∈ HOMEWORK_VERDICTS →
      dictGet kvs "homework_name" = some (.pystr n) →
      dictGet kvs "status" = some (.pystr c) →
      parse_status (.pydict kvs)
        = .ok ("Изменился статус проверки работы \"" ++ n ++ "\". " ++ verdict)
      ∧ strContains ("Изменился статус проверки работы \"" ++ n ++ "\". " ++ verdict) n
      ∧ strContains ("Изменился статус проверки работы \"" ++ n ++ "\". " ++ verdict) verdict := by
  intro kvs n c verdict hmem h1 h2
  have hv := hvLookup_mem c verdict hmem
  refine ⟨by simp [parse_status, h1, h2, hv, pyStr], ?_, ?_⟩
  · exact ⟨_, _, String.append_assoc _ "\". " verdict⟩
  · exact ⟨_, "", (String.append_empty _).symm⟩

/-- C7 witness: an `approved` record formats to the exact sentence. -/
theorem C7_parse_status_format_witness :
    parse_status (.pydict [("homework_name", .pystr "hw1"), ("status", .pystr "approved")])
      = .ok "Изменился статус проверки работы \"hw1\". Работа проверена: ревьюеру всё понравилось. Ура!" :=
  (C7_parse_status_formats_verdict
    [("homework_name", .pystr "hw1"), ("status", .pystr "approved")]
    "hw1" "approved" "Работа проверена: ревьюеру всё понравилось. Ура!"
    (by simp [HOMEWORK_VERDICTS]) rfl rfl).1

lemma runTry_ok_value (env : CycleEnv) (ts r v : PyVal)
    (sent : List String) (logs : List LogEvent)
    (hga : get_api_answer env ts = .ok r)
    (hrun : runTry env ts = (.ok v, sent, logs)) :
    v = pyGetV r "current_date" := by
  unfold runTry at hrun
  split at hrun
  · rename_i e heq
    rw [hga] at heq
    exact Except.noConfusion heq
  · rename_i response heq
    rw [hga] at heq
    injection heq with heq2
    subst heq2
    split at hrun
    · simp at hrun
    · split at hrun
      · simp at hrun
        exact hrun.1.symm
      · split at hrun
        · simp at hrun
        · split at hrun
          · simp at hrun
          · simp at hrun
            exact hrun.1.symm

/-- C4: after a poll cycle that completes successfully the Cursor holds
the response's `current_date` lookup, and the Last Error State is
cleared; after a cycle that raises anywhere in fetch, validation or
status translation, the Cursor is left unchanged. -/
theorem C4_cursor_update_atomicity :
    (∀ (env : CycleEnv) (ts : PyVal) (err : String) (r v : PyVal)
        (sent : List String) (logs : List LogEvent),
      get_api_answer env ts = .ok r →
      runTry env ts = (.ok v, sent, logs) →
      (runCycle env ts err).timestamp = pyGetV r "current_date"
        ∧ (runCycle env ts err).error_message = "")
    ∧ (∀ (env : CycleEnv) (ts : PyVal) (err : String) (e : PyErr)
        (sent : List String) (logs : List LogEvent),
      runTry env ts = (.error e, sent, logs) →
      (runCycle env ts err).timestamp = ts) := by
  constructor
  · intro env ts err r v sent logs hga hrun
    have hv := runTry_ok_value env ts r v sent logs hga hrun
    rw [runCycle_of_ok env ts err v sent logs hrun]
    exact ⟨hv, rfl⟩
  · intro env ts err e sent logs hrun
    exact runCycle_of_err_timestamp env ts err e sent logs hrun

/-- C4 witness: a successful empty-homeworks cycle advances the Cursor to
the served `current_date`; an HTTP-500 cycle leaves it unchanged. -/
theorem C4_cursor_witness :
    (runCycle (envOf sendOk (.pydict [("homeworks", .pylist []), ("current_date", .pyint 1000)]))
        (.pyint 42) "").timestamp
      = pyGetV (.pydict [("homeworks", .pylist []), ("current_date", .pyint 1000)]) "current_date"
    ∧ (runCycle (CycleEnv.mk (fun _ => .response 500 none) sendOk) (.pyint 42) "").timestamp
      = .pyint 42 :=
  ⟨(C4_cursor_update_atomicity.1
      (envOf sendOk (.pydict [("homeworks", .pylist []), ("current_date", .pyint 1000)]))
      (.pyint 42) ""
      (.pydict [("homeworks", .pylist []), ("current_date", .pyint 1000)])
      (.pyint 1000) []
      [.info "Список домашних работ получен", .debug "Новые статусы отсутствуют"]
      rfl rfl).1,
   C4_cursor_update_atomicity.2
      (CycleEnv.mk (fun _ => .response 500 none) sendOk) (.pyint 42) ""
      (.practicumException "Ошибка 500") [] [] rfl⟩

/-- The transport that always answers HTTP 500, with a working Telegram
client: the spec's standing-outage scenario. -/
def env500 : CycleEnv := { http := fun _ => .response 500 none, send := sendOk }

/-- C2: error-notification dedup across two consecutive failing cycles.
After the first failing cycle notifies (its text differing from the prior
Last Error State), a second failing cycle with identical error text sends
no notification while still logging at error severity — one notification
total — and a second failing cycle with a different text sends a second
notification and updates the Last Error State to the new text. -/
theorem C2_error_dedup_across_cycles :
    ∀ (e₁ e₂ : CycleEnv) (ts₀ : PyVal) (err₀ : String) (err₁ err₂ : PyErr)
      (s₁ s₂ : List String) (l₁ l₂ : List LogEvent),
      runTry e₁ ts₀ = (.error err₁, s₁, l₁) →
      errStr err₁ ≠ err₀ →
      sendRaises (e₁.send ("Сбой в работе программы: " ++ errStr err₁)) = false →
      runTry e₂ ts₀ = (.error err₂, s₂, l₂) →
      (runCycle e₁ ts₀ err₀).errorSent = ["Сбой в работе программы: " ++ errStr err₁]
      ∧ (runCycle e₁ ts₀ err₀).error_message = errStr err₁
      ∧ LogEvent.error ("Сбой в работе программы: " ++ errStr err₁) ∈ (runCycle e₁ ts₀ err₀).logs
      ∧ (errStr err₂ = errStr err₁ →
          (runCycle e₂ (runCycle e₁ ts₀ err₀).timestamp (runCycle e₁ ts₀ err₀).error_message).errorSent = []
          ∧ (runCycle e₂ (runCycle e₁ ts₀ err₀).timestamp (runCycle e₁ ts₀ err₀).error_message).error_message = errStr err₁
          ∧ LogEvent.error ("Сбой в работе программы: " ++ errStr err₂)
              ∈ (runCycle e₂ (runCycle e₁ ts₀ err₀).timestamp (runCycle e₁ ts₀ err₀).error_message).logs)
      ∧ (errStr err₂ ≠ errStr err₁ →
          sendRaises (e₂.send ("Сбой в работе программы: " ++ errStr err₂)) = false →
          (runCycle e₂ (runCycle e₁ ts₀ err₀).timestamp (runCycle e₁ ts₀ err₀).error_message).errorSent
            = ["Сбой в работе программы: " ++ errStr err₂]
          ∧ (runCycle e₂ (runCycle e₁ ts₀ err₀).timestamp (runCycle e₁ ts₀ err₀).error_message).error_message
            = errStr err₂) := by
  intro e₁ e₂ ts₀ err₀ err₁ err₂ s₁ s₂ l₁ l₂ h₁ hne₁ hs₁ h₂
  have hout₁ := runCycle_of_err_notify e₁ ts₀ err₀ err₁ s₁ l₁ h₁ hne₁ hs₁
  have ht : (runCycle e₁ ts₀ err₀).timestamp = ts₀ := by rw [hout₁]
  have he : (runCycle e₁ ts₀ err₀).error_message = errStr err₁ := by rw [hout₁]
  rw [ht, he]
  refine ⟨by rw [hout₁], rfl, by rw [hout₁]; simp, ?_, ?_⟩
  · intro heq
    have hout₂ := runCycle_of_err_suppress e₂ ts₀ (errStr err₁) err₂ s₂ l₂ h₂ heq
    rw [hout₂]
    exact ⟨rfl, rfl, by simp⟩
  · intro hne₂ hs₂
    have hout₂ := runCycle_of_err_notify e₂ ts₀ (errStr err₁) err₂ s₂ l₂ h₂ hne₂ hs₂
    rw [hout₂]
    exact ⟨rfl, rfl⟩

/-- C2 witness: two consecutive HTTP-500 cycles from the startup state
send exactly one notification (spec scenario D). -/
theorem C2_error_dedup_witness :
    (runCycle env500 (.pyint 42) "").errorSent = ["Сбой в работе программы: Ошибка 500"]
    ∧ (runCycle env500 (runCycle env500 (.pyint 42) "").timestamp
        (runCycle env500 (.pyint 42) "").error_message).errorSent = [] :=
  have h := C2_error_dedup_across_cycles env500 env500 (.pyint 42) ""
    (.practicumException "Ошибка 500") (.practicumException "Ошибка 500")
    [] [] [] [] rfl (by decide) rfl rfl
  ⟨h.1, (h.2.2.2.1 rfl).1⟩

lemma runCycle_statusSent (env : CycleEnv) (ts0 : PyVal) (err0 : String) :
    (runCycle env ts0 err0).statusSent = (runTry env ts0).2.1 := by
  unfold runCycle
  rcases hr : runTry env ts0 with ⟨res, sent, logs⟩
  cases res with
  | ok v => rfl
  | error e =>
    split
    · rename_i heq
      simp at heq
    · rename_i e2 sent2 logs2 heq2
      obtain ⟨he2, hs2, hl2⟩ : e = e2 ∧ sent = sent2 ∧ logs = logs2 := by
        simpa using heq2
      subst he2; subst hs2; subst hl2
      split
      · rcases hsm : send_message env ("Сбой в работе программы: " ++ errStr e) with ⟨slogs, sres⟩
        cases sres <;> simp [hsm]
      · rfl

lemma runTry_envOf (send : String → SendResult) (r ts : PyVal) :
    runTry (envOf send r) ts
      = match check_response r with
        | .error e => (.error e, [], [])
        | .ok homework =>
            match homework with
            | [] =>
                (.ok (pyGetV r "current_date"), [],
                 [.info "Список домашних работ получен",
                  .debug "Новые статусы отсутствуют"])
            | hw0 :: _ =>
                match parse_status hw0 with
                | .error e => (.error e, [], [.info "Список домашних работ получен"])
                | .ok text =>
                    match send_message (envOf send r) text with
                    | (slogs, .error e) =>
                        (.error e, [text], .info "Список домашних работ получен" :: slogs)
                    | (slogs, .ok _) =>
                        (.ok (pyGetV r "current_date"), [text],
                         .info "Список домашних работ получен" :: slogs) := by
  unfold runTry
  rw [get_api_answer_envOf]

lemma send_message_env_congr (env₁ env₂ : CycleEnv) (m : String)
    (h : env₁.send = env₂.send) : send_message env₁ m = send_message env₂ m := by
  unfold send_message
  rw [h]

lemma runCycle_envOf_congr (send : String → SendResult) (r₁ r₂ ts : PyVal)
    (err : String)
    (hr : runTry (envOf send r₁) ts = runTry (envOf send r₂) ts) :
    runCycle (envOf send r₁) ts err = runCycle (envOf send r₂) ts err := by
  unfold runCycle
  rw [hr]
  rcases hX : runTry (envOf send r₂) ts with ⟨res, sent, logs⟩
  cases res with
  | ok v => rfl
  | error e =>
    have hsAll : ∀ m, send_message (envOf send r₁) m = send_message (envOf send r₂) m :=
      fun m => send_message_env_congr _ _ m rfl
    split
    · rfl
    · rw [hsAll]

/-- C8 counterexample: a cycle with a non-empty validated list whose
element 0 carries the unrecognized status `archived` sends zero status
notifications (the Status Translator raises before the Notifier is
reached), refuting "exactly one status notification is sent" for every
cycle with a non-empty validated list. -/
theorem C8_counterexample_translation_failure :
    check_response (.pydict [("homeworks",
        .pylist [.pydict [("homework_name", .pystr "hw2"), ("status", .pystr "archived")]])])
      = .ok [.pydict [("homework_name", .pystr "hw2"), ("status", .pystr "archived")]]
    ∧ (runCycle (envOf sendOk (.pydict [("homeworks",
        .pylist [.pydict [("homework_name", .pystr "hw2"), ("status", .pystr "archived")]])]))
        (.pyint 42) "").statusSent = [] :=
  ⟨rfl, rfl⟩

/-- C8 (amended): the poll cycle inspects only element 0 of the validated
homeworks list — its entire outcome is unchanged by the elements beyond
index 0 — and at most one status notification is sent per cycle: exactly
one when translating element 0 succeeds, none when translation raises,
and none when the validated list is empty. -/
theorem C8_first_element_only :
    (∀ (send : String → SendResult) (r₁ r₂ h : PyVal) (t₁ t₂ : List PyVal)
        (ts : PyVal) (err : String),
      check_response r₁ = .ok (h :: t₁) →
      check_response r₂ = .ok (h :: t₂) →
      pyGetV r₁ "current_date" = pyGetV r₂ "current_date" →
      runCycle (envOf send r₁) ts err = runCycle (envOf send r₂) ts err)
    ∧ (∀ (send : String → SendResult) (r h : PyVal) (t : List PyVal)
        (ts : PyVal) (err text : String),
      check_response r = .ok (h :: t) →
      parse_status h = .ok text →
      (runCycle (envOf send r) ts err).statusSent = [text])
    ∧ (∀ (send : String → SendResult) (r h : PyVal) (t : List PyVal)
        (ts : PyVal) (err : String) (e : PyErr),
      check_response r = .ok (h :: t) →
      parse_status h = .error e →
      (runCycle (envOf send r) ts err).statusSent = [])
    ∧ (∀ (send : String → SendResult) (r ts : PyVal) (err : String),
      check_response r = .ok [] →
      (runCycle (envOf send r) ts err).statusSent = []) := by
  refine ⟨?_, ?_, ?_, ?_⟩
  · intro send r₁ r₂ h t₁ t₂ ts err hc₁ hc₂ hcd
    have hsAll : ∀ m, send_message (envOf send r₁) m = send_message (envOf send r₂) m :=
      fun m => send_message_env_congr _ _ m rfl
    apply runCycle_envOf_congr
    rw [runTry_envOf, runTry_envOf, hc₁, hc₂]
    simp only [hcd, hsAll]
  · intro send r h t ts err text hc hps
    rw [runCycle_statusSent, runTry_envOf, hc]
    simp only [hps]
    rcases hsm : send_message (envOf send r) text with ⟨slogs, sres⟩
    cases sres <;> rfl
  · intro send r h t ts err e hc hps
    rw [runCycle_statusSent, runTry_envOf, hc]
    simp only [hps]
  · intro send r ts err hc
    rw [runCycle_statusSent, runTry_envOf, hc]

/-- C8 witness: a two-element list behaves exactly as the one-element
list with the same head; a recognized head yields exactly one status
notification; an unrecognized head yields none; an empty list yields
none. -/
theorem C8_first_element_witness :
    runCycle (envOf sendOk (.pydict [("homeworks",
        .pylist [.pydict [("homework_name", .pystr "hw1"), ("status", .pystr "approved")]]),
        ("current_date", .pyint 5)])) (.pyint 42) ""
      = runCycle (envOf sendOk (.pydict [("homeworks",
        .pylist [.pydict [("homework_name", .pystr "hw1"), ("status", .pystr "approved")],
                 .pydict [("homework_name", .pystr "hw0"), ("status", .pystr "rejected")]]),
        ("current_date", .pyint 5)])) (.pyint 42) ""
    ∧ (runCycle (envOf sendOk (.pydict [("homeworks",
        .pylist [.pydict [("homework_name", .pystr "hw1"), ("status", .pystr "approved")]]),
        ("current_date", .pyint 5)])) (.pyint 42) "").statusSent
      = ["Изменился статус проверки работы \"hw1\". Работа проверена: ревьюеру всё понравилось. Ура!"]
    ∧ (runCycle (envOf sendOk (.pydict [("homeworks",
        .pylist [.pydict [("homework_name", .pystr "hw2"), ("status", .pystr "archived")]])]))
        (.pyint 42) "").statusSent = []
    ∧ (runCycle (envOf sendOk (.pydict [("homeworks", .pylist [])])) (.pyint 42) "").statusSent = [] :=
  ⟨C8_first_element_only.1 sendOk _ _
      (.pydict [("homework_name", .pystr "hw1"), ("status", .pystr "approved")])
      [] [.pydict [("homework_name", .pystr "hw0"), ("status", .pystr "rejected")]]
      (.pyint 42) "" rfl rfl rfl,
   C8_first_element_only.2.1 sendOk _
      (.pydict [("homework_name", .pystr "hw1"), ("status", .pystr "approved")])
      [] (.pyint 42) ""
      "Изменился статус проверки работы \"hw1\". Работа проверена: ревьюеру всё понравилось. Ура!"
      rfl rfl,
   C8_first_element_only.2.2.1 sendOk _
      (.pydict [("homework_name", .pystr "hw2"), ("status", .pystr "archived")])
      [] (.pyint 42) "" (.practicumException "Неизвестный статус работы: archived")
      rfl rfl,
   C8_first_element_only.2.2.2 sendOk _ (.pyint 42) "" rfl⟩

/-- C10: the Last Error State is cleared to the empty string by every
successful cycle (and starts empty), and a failing cycle whose error has
empty message text is then suppressed by the dedup comparison against the
empty-string sentinel: no error notification is sent even though that
error was never notified, while the failure is still logged at error
severity. -/
theorem C10_empty_error_text_never_notified :
    (∀ (env : CycleEnv) (ts : PyVal) (err : String) (v : PyVal)
        (sent : List String) (logs : List LogEvent),
      runTry env ts = (.ok v, sent, logs) →
      (runCycle env ts err).error_message = "")
    ∧ (∀ (env : CycleEnv) (ts : PyVal) (e : PyErr)
        (sent : List String) (logs : List LogEvent),
      runTry env ts = (.error e, sent, logs) →
      errStr e = "" →
      (runCycle env ts "").errorSent = []
      ∧ (runCycle env ts "").logs
          = logs ++ [.error ("Сбой в работе программы: " ++ errStr e)]) := by
  constructor
  · intro env ts err v sent logs h
    rw [runCycle_of_ok env ts err v sent logs h]
  · intro env ts e sent logs h he
    rw [runCycle_of_err_suppress env ts "" e sent logs h he]
    exact ⟨rfl, rfl⟩

/-- C10 witness: a Telegram client raising a non-Telegram exception with
empty text makes the cycle fail with error text `""` from the startup
state; no error notification is sent, one error log line appears. -/
theorem C10_empty_error_witness :
    (runCycle (CycleEnv.mk
        (fun _ => .response 200 (some (.pydict [("homeworks",
          .pylist [.pydict [("homework_name", .pystr "hw1"), ("status", .pystr "approved")]])])))
        (fun _ => .otherErr "")) (.pyint 42) "").errorSent = []
    ∧ (runCycle (envOf sendOk (.pydict [("homeworks", .pylist [])])) (.pyint 42) "x").error_message
      = "" :=
  ⟨(C10_empty_error_text_never_notified.2
      (CycleEnv.mk
        (fun _ => .response 200 (some (.pydict [("homeworks",
          .pylist [.pydict [("homework_name", .pystr "hw1"), ("status", .pystr "approved")]])])))
        (fun _ => .otherErr ""))
      (.pyint 42) (.otherError "")
      ["Изменился статус проверки работы \"hw1\". Работа проверена: ревьюеру всё понравилось. Ура!"]
      [.info "Список домашних работ получен"] rfl rfl).1,
   C10_empty_error_text_never_notified.1
      (envOf sendOk (.pydict [("homeworks", .pylist [])])) (.pyint 42) "x"
      .pynone []
      [.info "Список домашних работ получен", .debug "Новые статусы отсутствуют"] rfl⟩
